import Mathlib

/-!
Verification of the `useUserData` hook (src/useUserData.js): a session store
that holds a user profile plus meal log, issues profile/meal mutations against
a remote data service, and derives entitlement flags.

Modelling conventions (JavaScript semantics, made explicit):
* Numeric profile fields may be absent (`undefined` / SQL `null`); they are
  modelled as `Option Int`, with `none` for a missing value.
* A JS comparison such as `undefined < 10`, `undefined > 0` or
  `undefined <= 0` evaluates to `false`; `jsLt`, `jsGt`, `jsLe` mirror this.
* `x || 0` replaces a falsy value by `0`; on an integer field the only falsy
  number is `0` itself, so `x || 0` coincides with `Option.getD x 0`.
* Arithmetic on a missing value (`undefined + 1 = NaN`) stays missing
  (`jsAdd none k = none`); in this code such a value is only ever read back
  through the comparisons above, where `NaN` and `undefined` behave alike.
* The remote data service is an external collaborator.  Its visible behaviour
  is a parameter of every operation: an outcome (`ok`/`fail`) decided by the
  server, and for successful profile updates the row it returns, computed by
  `applyUpdates` (the partial update merged over the stored row, with a fresh
  `updated_at`, as the `update ... select ... single` call requests).
-/

/-- A profile row: `id`, the entitlement fields used by the hook, and the
`updated_at` stamp the update path maintains.  Numeric fields are `Option Int`
because the JS object may lack them. -/
structure Profile where
  id : String
  is_premium : Bool
  credits : Option Int
  track_calories_usage : Option Int
  updated_at : Option String
deriving Repr, DecidableEq

/-- A meal-log row.  `id` is assigned by the service; `name`/`calories` stand
for the client-supplied nutritional payload carried through the shallow copy. -/
structure MealLogEntry where
  id : Option String
  user_id : Option String
  scanned_at : Option String
  name : Option String
  calories : Option Int
deriving Repr, DecidableEq

/-- The `user` object held in state: the fetched profile spread together with
the `mealLog` array (`setUser({ ...profile, mealLog })`). -/
structure UserState where
  profile : Profile
  mealLog : List MealLogEntry
deriving Repr, DecidableEq

/-- The hook's state triple: `user`, `loading`, `error`. -/
structure HookState where
  user : Option UserState
  loading : Bool
  error : Option String
deriving Repr, DecidableEq

/-- JS `a < b` on a possibly-missing left operand: `undefined < b` is `false`. -/
def jsLt (a : Option Int) (b : Int) : Bool :=
  match a with
  | some x => decide (x < b)
  | none => false

/-- JS `a > b` on a possibly-missing left operand: `undefined > b` is `false`. -/
def jsGt (a : Option Int) (b : Int) : Bool :=
  match a with
  | some x => decide (b < x)
  | none => false

/-- JS `a <= b` on a possibly-missing left operand: `undefined <= b` is `false`. -/
def jsLe (a : Option Int) (b : Int) : Bool :=
  match a with
  | some x => decide (x ≤ b)
  | none => false

/-- JS `a + k` (and `a - k` via a negative `k`): arithmetic on a missing value
produces `NaN`, which this code only ever reads back through comparisons and
`|| 0`, where it behaves exactly like a missing value; so it stays `none`. -/
def jsAdd (a : Option Int) (k : Int) : Option Int :=
  a.map (fun x => x + k)

/-- `const MAX_FREE_SCANS = 10`. -/
def MAX_FREE_SCANS : Int := 10

/-- A partial profile update, as sent to the data service.  An outer `none`
means the field is not part of the update; the inner value is the JS value
written (itself possibly non-numeric, see `jsAdd`). -/
structure ProfileUpdates where
  is_premium : Option Bool := none
  credits : Option (Option Int) := none
  track_calories_usage : Option (Option Int) := none
deriving Repr, DecidableEq

/-- The data service's behaviour on a profile update: the partial fields are
merged over the stored row and `updated_at` is set to the fresh timestamp the
client attached (`{ ...updates, updated_at: new Date().toISOString() }`);
`select().single()` then returns this full updated row. -/
def applyUpdates (p : Profile) (u : ProfileUpdates) (now : String) : Profile :=
  { p with
    is_premium := u.is_premium.getD p.is_premium
    credits := u.credits.getD p.credits
    track_calories_usage := u.track_calories_usage.getD p.track_calories_usage
    updated_at := some now }

/-- Whether the remote update succeeds, decided by the server. -/
inductive UpdateOutcome where
  | ok
  | fail (msg : String)
deriving Repr, DecidableEq

/-- `updateProfile(userId, updates)`: sends the partial update with a fresh
`updated_at`; on failure it logs, sets `error`, and returns `null` (no change
to `user` or to the stored row); on success the returned row is shallow-merged
over the previous `user` (`setUser(prev => ({ ...prev, ...data }))`), which
keeps `mealLog` since the returned row has only profile columns, and the row
is returned.  If `user` was `null`, spreading it contributes nothing and the
merged object has no `mealLog` field, which every later read treats as the
empty list.  Result: (stored row, hook state, returned value). -/
def updateProfile (server : Profile) (st : HookState) (updates : ProfileUpdates)
    (now : String) (outcome : UpdateOutcome) :
    Profile × HookState × Option Profile :=
  match outcome with
  | .fail msg => (server, { st with error := some msg }, none)
  | .ok =>
    let data := applyUpdates server updates now
    let newUser : UserState :=
      match st.user with
      | some u => { profile := data, mealLog := u.mealLog }
      | none => { profile := data, mealLog := [] }
    (data, { st with user := some newUser }, some data)

/-- `incrementTrackCaloriesUsage()`: returns at once if there is no user, the
user is premium, or `user.credits > 0`; otherwise, if
`user.track_calories_usage < MAX_FREE_SCANS` (false when the field is missing,
since `undefined < 10` is `false`) it updates the field to
`user.track_calories_usage + 1`; else it does nothing. -/
def incrementTrackCaloriesUsage (server : Profile) (st : HookState)
    (now : String) (outcome : UpdateOutcome) : Profile × HookState :=
  match st.user with
  | none => (server, st)
  | some u =>
    if u.profile.is_premium || jsGt u.profile.credits 0 then (server, st)
    else if jsLt u.profile.track_calories_usage MAX_FREE_SCANS then
      let r := updateProfile server st
        { track_calories_usage := some (jsAdd u.profile.track_calories_usage 1) }
        now outcome
      (r.1, r.2.1)
    else (server, st)

/-- `addCredits(amount)`: no-op without a user; otherwise updates `credits`
to `(user.credits || 0) + amount`.  No bound check on `amount`. -/
def addCredits (server : Profile) (st : HookState) (amount : Int)
    (now : String) (outcome : UpdateOutcome) : Profile × HookState :=
  match st.user with
  | none => (server, st)
  | some u =>
    let r := updateProfile server st
      { credits := some (some (u.profile.credits.getD 0 + amount)) } now outcome
    (r.1, r.2.1)

/-- `useCreditForScan()`: returns `false` without mutation if there is no user
or `user.credits <= 0`; otherwise updates `credits` to `user.credits - 1` and
returns `true` — without inspecting the update's outcome. -/
def useCreditForScan (server : Profile) (st : HookState)
    (now : String) (outcome : UpdateOutcome) : Profile × HookState × Bool :=
  match st.user with
  | none => (server, st, false)
  | some u =>
    if jsLe u.profile.credits 0 then (server, st, false)
    else
      let r := updateProfile server st
        { credits := some (jsAdd u.profile.credits (-1)) } now outcome
      (r.1, r.2.1, true)

/-- `setPremium(flag)`: no-op without a user; otherwise updates `is_premium`. -/
def setPremium (server : Profile) (st : HookState) (flag : Bool)
    (now : String) (outcome : UpdateOutcome) : Profile × HookState :=
  match st.user with
  | none => (server, st)
  | some _ =>
    let r := updateProfile server st { is_premium := some flag } now outcome
    (r.1, r.2.1)

/-- The row `addMealToLog` builds before inserting: a shallow copy of the
input with `user_id` and `scanned_at` overridden, then `delete mealToAdd.id`. -/
def mealToAdd (u : UserState) (mealItem : MealLogEntry) (now : String) :
    MealLogEntry :=
  { mealItem with user_id := some u.profile.id, scanned_at := some now, id := none }

/-- Outcome of the meal-log insert, decided by the server: on success the
service assigns the new row's identity. -/
inductive InsertOutcome where
  | ok (serverId : String)
  | fail (msg : String)
deriving Repr, DecidableEq

/-- The data service's behaviour on `insert(row).select().single()`: it stores
the row, assigns its `id`, and returns it. -/
def insertMealService (row : MealLogEntry) (serverId : String) : MealLogEntry :=
  { row with id := some serverId }

/-- `addMealToLog(mealItem)`: no-op (returning `undefined`, modelled `none`)
without a user; otherwise inserts `mealToAdd`; on failure it logs, sets
`error` and returns `null`; on success the returned row is prepended to
`mealLog` and returned. -/
def addMealToLog (st : HookState) (mealItem : MealLogEntry)
    (now : String) (outcome : InsertOutcome) : HookState × Option MealLogEntry :=
  match st.user with
  | none => (st, none)
  | some u =>
    match outcome with
    | .fail msg => ({ st with error := some msg }, none)
    | .ok serverId =>
      let data := insertMealService (mealToAdd u mealItem now) serverId
      ({ st with user := some { u with mealLog := data :: u.mealLog } }, some data)

/-- Outcome of the profile query in `fetchUserProfile`: a row, the specific
"no rows" condition (`PGRST116`, not an error), or any other error. -/
inductive FetchProfileResult where
  | found (p : Profile)
  | noRows
  | err (msg : String)
deriving Repr, DecidableEq

/-- Outcome of the meal-log query: the rows (possibly a missing list, guarded
by `mealLog || []`; note a present empty array is truthy) or an error. -/
inductive FetchMealsResult where
  | ok (meals : Option (List MealLogEntry))
  | err (msg : String)
deriving Repr, DecidableEq

/-- The first step of `fetchUserProfile`: `setLoading(true); setError(null)`. -/
def fetchStart (st : HookState) : HookState :=
  { st with loading := true, error := none }

/-- `fetchUserProfile(userId)`: after `fetchStart`, a profile error other than
`PGRST116` is thrown; a found profile triggers the meal-log query, whose error
is also thrown; `PGRST116` yields a `null` profile, so `setUser(null)`.  The
catch branch logs, sets `error` and `user = null`; the finally branch always
ends with `loading = false`. -/
def fetchUserProfile (st : HookState) (pres : FetchProfileResult)
    (mres : FetchMealsResult) : HookState :=
  let st1 := fetchStart st
  match pres with
  | .err msg => { st1 with error := some msg, user := none, loading := false }
  | .noRows => { st1 with user := none, loading := false }
  | .found p =>
    match mres with
    | .err msg => { st1 with error := some msg, user := none, loading := false }
    | .ok meals =>
      { st1 with user := some { profile := p, mealLog := meals.getD [] },
                 loading := false }

/-- `remainingFreeScans = user ? Math.max(0, MAX_FREE_SCANS -
(user.track_calories_usage || 0)) : 0`. -/
def remainingFreeScans (user : Option UserState) : Int :=
  match user with
  | some u => max 0 (MAX_FREE_SCANS - u.profile.track_calories_usage.getD 0)
  | none => 0

/-- `canUseForFree = user ? !user.is_premium && (user.credits || 0) === 0 &&
remainingFreeScans > 0 : false`. -/
def canUseForFree (user : Option UserState) : Bool :=
  match user with
  | some u =>
    !u.profile.is_premium && (u.profile.credits.getD 0 == 0)
      && decide (0 < remainingFreeScans user)
  | none => false

/-- `canUseWithCredits = user ? !user.is_premium && (user.credits || 0) > 0 :
false`. -/
def canUseWithCredits (user : Option UserState) : Bool :=
  match user with
  | some u => !u.profile.is_premium && decide (0 < u.profile.credits.getD 0)
  | none => false

/-- `canUseAsPremium = user ? user.is_premium : false`. -/
def canUseAsPremium (user : Option UserState) : Bool :=
  match user with
  | some u => u.profile.is_premium
  | none => false

/-- The hook state after a successful profile update merges the returned row
over the previous user, keeping its meal log (statement shorthand). -/
def mergeRow (st : HookState) (u : UserState) (row : Profile) : HookState :=
  { st with user := some { profile := row, mealLog := u.mealLog } }

/-- A hook state holding the given profile and meal log, idle and error-free. -/
def mkState (p : Profile) (ml : List MealLogEntry) : HookState :=
  { user := some { profile := p, mealLog := ml }, loading := false, error := none }

/-- A concrete premium profile used in witnesses. -/
def premiumProfile : Profile :=
  { id := "u1", is_premium := true, credits := some 5, track_calories_usage := some 3, updated_at := none }

/-- A concrete non-premium profile with zero credits and zero usage. -/
def freeProfile0 : Profile :=
  { id := "u1", is_premium := false, credits := some 0, track_calories_usage := some 0, updated_at := none }

/-- A concrete non-premium, zero-credit profile one scan below the cap. -/
def freeProfile9 : Profile :=
  { id := "u1", is_premium := false, credits := some 0, track_calories_usage := some 9, updated_at := none }

/-- A concrete non-premium profile holding two credits. -/
def creditProfile2 : Profile :=
  { id := "u1", is_premium := false, credits := some 2, track_calories_usage := some 0, updated_at := none }

/-- A concrete non-premium, zero-credit profile at the free-scan cap. -/
def cappedProfile10 : Profile :=
  { id := "u1", is_premium := false, credits := some 0, track_calories_usage := some 10, updated_at := none }

/-- A concrete non-premium, zero-credit profile whose usage field is absent. -/
def freeProfileNoUsage : Profile :=
  { id := "u1", is_premium := false, credits := some 0, track_calories_usage := none, updated_at := none }

/-- The hook state after the user's meal log is replaced (statement
shorthand for the `setUser` call in `addMealToLog`). -/
def withMealLog (st : HookState) (u : UserState) (ml : List MealLogEntry) :
    HookState :=
  { st with user := some { u with mealLog := ml } }

/-- A concrete client-built meal item carrying a client-supplied `id`. -/
def appleItem : MealLogEntry :=
  { id := some "client-id", user_id := none, scanned_at := none, name := some "Apple", calories := some 95 }

/-- C1: for every user state, at most one of `canUseForFree`,
`canUseWithCredits`, `canUseAsPremium` is true; and whenever `is_premium` is
true, `canUseAsPremium` is true while the other two flags are false,
regardless of `credits` and `track_calories_usage`. -/
theorem C1_flags_mutually_exclusive (user : Option UserState) :
    ((canUseForFree user && canUseWithCredits user) = false
      ∧ (canUseForFree user && canUseAsPremium user) = false
      ∧ (canUseWithCredits user && canUseAsPremium user) = false)
    ∧ (∀ u : UserState, user = some u → u.profile.is_premium = true →
        canUseAsPremium user = true ∧ canUseForFree user = false
          ∧ canUseWithCredits user = false) := by
  constructor
  · refine ⟨?_, ?_, ?_⟩ <;>
    · match user with
      | none => rfl
      | some u =>
        simp only [canUseForFree, canUseWithCredits, canUseAsPremium,
          Bool.and_eq_false_iff]
        rcases h : u.profile.is_premium with _ | _
        · rcases h0 : u.profile.credits.getD 0 == 0 with _ | _ <;> simp_all
        · simp
  · rintro u rfl hp
    simp [canUseForFree, canUseWithCredits, canUseAsPremium, hp]

/-- C1 witness: the premium conjunct at a concrete premium user. -/
theorem C1_flags_mutually_exclusive_witness :
    canUseAsPremium (some { profile := premiumProfile, mealLog := [] }) = true
    ∧ canUseForFree (some { profile := premiumProfile, mealLog := [] }) = false
    ∧ canUseWithCredits (some { profile := premiumProfile, mealLog := [] }) = false :=
  (C1_flags_mutually_exclusive _).2 _ rfl rfl

/-- C2 counterexample: `addCredits (-5)` on a user with zero credits leaves
the stored credits at `-5`, a negative value, so the non-negativity invariant
is not preserved by every operation. -/
theorem C2_nonnegativity_counterexample :
    (addCredits freeProfile0 (mkState freeProfile0 []) (-5) "t1"
        UpdateOutcome.ok).1.credits = some (-5)
    ∧ ((-5 : Int) < 0) :=
  ⟨rfl, by decide⟩

/-- C2 amended: `addCredits` stores `(credits or 0) + amount`, which is
non-negative exactly when `amount ≥ -(credits or 0)` — a sufficiently negative
`amount` leaves credits negative, since negative amounts are not rejected.
The other quota operations do preserve non-negativity: `useCreditForScan`
only decrements a strictly positive credit count, and
`incrementTrackCaloriesUsage` only increments the usage counter. -/
theorem C2_nonnegativity_amended (server : Profile) (st : HookState)
    (u : UserState) (amount : Int) (now : String) (outcome : UpdateOutcome)
    (hu : st.user = some u) :
    ((addCredits server st amount now UpdateOutcome.ok).1.credits
        = some (u.profile.credits.getD 0 + amount))
    ∧ (-(u.profile.credits.getD 0) ≤ amount →
        0 ≤ (addCredits server st amount now UpdateOutcome.ok).1.credits.getD 0)
    ∧ (amount < -(u.profile.credits.getD 0) →
        (addCredits server st amount now UpdateOutcome.ok).1.credits.getD 0 < 0)
    ∧ (u.profile = server → 0 ≤ server.credits.getD 0 →
        0 ≤ (useCreditForScan server st now outcome).1.credits.getD 0)
    ∧ (u.profile = server → 0 ≤ server.track_calories_usage.getD 0 →
        0 ≤ (incrementTrackCaloriesUsage server st now
              outcome).1.track_calories_usage.getD 0) := by
  refine ⟨?_, ?_, ?_, ?_, ?_⟩
  · simp [addCredits, updateProfile, applyUpdates, hu]
  · intro h
    simp only [addCredits, updateProfile, applyUpdates, hu]
    simpa using by omega
  · intro h
    simp only [addCredits, updateProfile, applyUpdates, hu]
    simpa using by omega
  · intro hsync h0
    simp only [useCreditForScan, updateProfile, applyUpdates, hu, jsLe, jsAdd]
    rcases hc : u.profile.credits with _ | c
    · cases outcome <;> simp [hsync ▸ hc, hc] at h0 ⊢
    · rcases lt_or_le 0 c with hpos | hneg
      · cases outcome <;>
          simp [hsync ▸ hc, hc, show ¬ c ≤ 0 by omega] at h0 ⊢ <;> omega
      · simp [hsync ▸ hc, hc, hneg] at h0 ⊢; omega
  · intro hsync h0
    cases hg : (u.profile.is_premium || jsGt u.profile.credits 0) with
    | true => simpa [incrementTrackCaloriesUsage, hu, hg] using h0
    | false =>
      rcases ht : u.profile.track_calories_usage with _ | t
      · simpa [incrementTrackCaloriesUsage, hu, hg, jsLt, ht] using h0
      · rw [hsync] at ht
        rcases lt_or_le t MAX_FREE_SCANS with hlt | hge
        · cases outcome with
          | ok =>
            simp [incrementTrackCaloriesUsage, hu, hg, jsLt, hsync ▸ ht,
              hlt, updateProfile, applyUpdates, jsAdd]
            rw [ht] at h0
            simp at h0
            omega
          | fail msg =>
            simpa [incrementTrackCaloriesUsage, hu, hg, jsLt, hsync ▸ ht,
              hlt, updateProfile] using h0
        · simpa [incrementTrackCaloriesUsage, hu, hg, jsLt, hsync ▸ ht,
            show ¬ t < MAX_FREE_SCANS by omega] using h0

/-- C2 witness: concrete instances of the amended statement's conjuncts. -/
theorem C2_nonnegativity_amended_witness :
    (0 ≤ (addCredits freeProfile0 (mkState freeProfile0 []) 7 "t1"
        UpdateOutcome.ok).1.credits.getD 0)
    ∧ ((addCredits freeProfile0 (mkState freeProfile0 []) (-5) "t1"
        UpdateOutcome.ok).1.credits.getD 0 < 0)
    ∧ (0 ≤ (useCreditForScan freeProfile0 (mkState freeProfile0 []) "t1"
        UpdateOutcome.ok).1.credits.getD 0)
    ∧ (0 ≤ (incrementTrackCaloriesUsage freeProfile0 (mkState freeProfile0 [])
        "t1" UpdateOutcome.ok).1.track_calories_usage.getD 0) := by
  refine ⟨?_, ?_, ?_, ?_⟩
  · exact (C2_nonnegativity_amended freeProfile0 (mkState freeProfile0 [])
      ⟨freeProfile0, []⟩ 7 "t1" UpdateOutcome.ok rfl).2.1 (by decide)
  · exact (C2_nonnegativity_amended freeProfile0 (mkState freeProfile0 [])
      ⟨freeProfile0, []⟩ (-5) "t1" UpdateOutcome.ok rfl).2.2.1 (by decide)
  · exact (C2_nonnegativity_amended freeProfile0 (mkState freeProfile0 [])
      ⟨freeProfile0, []⟩ 0 "t1" UpdateOutcome.ok rfl).2.2.2.1 rfl (by decide)
  · exact (C2_nonnegativity_amended freeProfile0 (mkState freeProfile0 [])
      ⟨freeProfile0, []⟩ 0 "t1" UpdateOutcome.ok rfl).2.2.2.2 rfl (by decide)

/-- C3: `incrementTrackCaloriesUsage` performs no update at all when the user
is premium or has `credits > 0`; otherwise below the cap it raises the usage
counter by exactly one (and stamps `updated_at`), and at or above the cap it
changes nothing; hence on a non-premium zero-credit user at usage 9 one call
yields 10 and a second call leaves everything unchanged. -/
theorem C3_incrementTrackCaloriesUsage_spec (server : Profile) (st : HookState)
    (u : UserState) (now : String) (outcome : UpdateOutcome)
    (hu : st.user = some u) :
    ((u.profile.is_premium = true ∨ jsGt u.profile.credits 0 = true) →
        incrementTrackCaloriesUsage server st now outcome = (server, st))
    ∧ (∀ t : Int, u.profile.is_premium = false → jsGt u.profile.credits 0 = false →
        u.profile.track_calories_usage = some t → t < MAX_FREE_SCANS →
        incrementTrackCaloriesUsage server st now UpdateOutcome.ok
          = ({ server with track_calories_usage := some (t + 1), updated_at := some now },
             mergeRow st u
               { server with track_calories_usage := some (t + 1), updated_at := some now }))
    ∧ (∀ t : Int, u.profile.track_calories_usage = some t → MAX_FREE_SCANS ≤ t →
        incrementTrackCaloriesUsage server st now outcome = (server, st))
    ∧ (∀ (p : Profile) (ml : List MealLogEntry) (l : Bool) (e : Option String)
          (now1 now2 : String),
        p.is_premium = false → p.credits = some 0 → p.track_calories_usage = some 9 →
        ((incrementTrackCaloriesUsage p ⟨some ⟨p, ml⟩, l, e⟩ now1
            UpdateOutcome.ok).1.track_calories_usage = some 10)
        ∧ (incrementTrackCaloriesUsage
            (incrementTrackCaloriesUsage p ⟨some ⟨p, ml⟩, l, e⟩ now1 UpdateOutcome.ok).1
            (incrementTrackCaloriesUsage p ⟨some ⟨p, ml⟩, l, e⟩ now1 UpdateOutcome.ok).2
            now2 UpdateOutcome.ok
          = incrementTrackCaloriesUsage p ⟨some ⟨p, ml⟩, l, e⟩ now1 UpdateOutcome.ok)) := by
  refine ⟨?_, ?_, ?_, ?_⟩
  · rintro (h | h) <;> simp [incrementTrackCaloriesUsage, hu, h]
  · intro t hp hc ht hlt
    rw [MAX_FREE_SCANS] at hlt
    simp [incrementTrackCaloriesUsage, hu, hp, hc, jsLt, ht, MAX_FREE_SCANS,
      hlt, updateProfile, applyUpdates, jsAdd, mergeRow]
  · intro t ht hge
    rw [MAX_FREE_SCANS] at hge
    cases hg : (u.profile.is_premium || jsGt u.profile.credits 0) <;>
      simp [incrementTrackCaloriesUsage, hu, hg, jsLt, ht, MAX_FREE_SCANS,
        show ¬ t < 10 by omega]
  · intro p ml l e now1 now2 hp hc ht
    constructor <;>
      simp [incrementTrackCaloriesUsage, hp, hc, ht, jsGt, jsLt,
        MAX_FREE_SCANS, updateProfile, applyUpdates, jsAdd]

/-- C3 witness: the 9 → 10 → 10 scenario at a concrete profile. -/
theorem C3_incrementTrackCaloriesUsage_spec_witness :
    ((incrementTrackCaloriesUsage freeProfile9 (mkState freeProfile9 []) "t1"
        UpdateOutcome.ok).1.track_calories_usage = some 10)
    ∧ (incrementTrackCaloriesUsage
        (incrementTrackCaloriesUsage freeProfile9 (mkState freeProfile9 []) "t1"
          UpdateOutcome.ok).1
        (incrementTrackCaloriesUsage freeProfile9 (mkState freeProfile9 []) "t1"
          UpdateOutcome.ok).2
        "t2" UpdateOutcome.ok
      = incrementTrackCaloriesUsage freeProfile9 (mkState freeProfile9 []) "t1"
          UpdateOutcome.ok) :=
  (C3_incrementTrackCaloriesUsage_spec freeProfile9 (mkState freeProfile9 [])
    ⟨freeProfile9, []⟩ "t1" UpdateOutcome.ok rfl).2.2.2
    freeProfile9 [] false none "t1" "t2" rfl rfl rfl

/-- C4: `useCreditForScan` returns `false` without any mutation when there is
no user or the user's credits are at most zero; when credits are strictly
positive it stores credits decremented by exactly one, merges the updated row
into the user, and returns `true`. -/
theorem C4_useCreditForScan_spec (server : Profile) (st : HookState)
    (u : UserState) (now : String) :
    (st.user = none → ∀ outcome : UpdateOutcome,
        useCreditForScan server st now outcome = (server, st, false))
    ∧ (st.user = some u → ∀ c : Int, u.profile.credits = some c → c ≤ 0 →
        ∀ outcome : UpdateOutcome,
        useCreditForScan server st now outcome = (server, st, false))
    ∧ (st.user = some u → ∀ c : Int, u.profile.credits = some c → 0 < c →
        useCreditForScan server st now UpdateOutcome.ok
          = ({ server with credits := some (c - 1), updated_at := some now },
             mergeRow st u { server with credits := some (c - 1), updated_at := some now },
             true)) := by
  refine ⟨?_, ?_, ?_⟩
  · intro hu outcome
    simp [useCreditForScan, hu]
  · intro hu c hc hle outcome
    simp [useCreditForScan, hu, jsLe, hc, hle]
  · intro hu c hc hpos
    simp [useCreditForScan, hu, jsLe, hc, show ¬ c ≤ 0 by omega, updateProfile,
      applyUpdates, jsAdd, mergeRow, sub_eq_add_neg]

/-- C4 witness: zero credits refuse the scan and leave everything unchanged;
two credits yield success and a stored balance of one. -/
theorem C4_useCreditForScan_spec_witness :
    (useCreditForScan freeProfile0 (mkState freeProfile0 []) "t1" UpdateOutcome.ok
      = (freeProfile0, mkState freeProfile0 [], false))
    ∧ ((useCreditForScan creditProfile2 (mkState creditProfile2 []) "t1"
          UpdateOutcome.ok).2.2 = true)
    ∧ ((useCreditForScan creditProfile2 (mkState creditProfile2 []) "t1"
          UpdateOutcome.ok).1.credits = some 1) := by
  refine ⟨?_, ?_, ?_⟩
  · exact (C4_useCreditForScan_spec freeProfile0 (mkState freeProfile0 [])
      ⟨freeProfile0, []⟩ "t1").2.1 rfl 0 rfl (by decide) UpdateOutcome.ok
  · rw [(C4_useCreditForScan_spec creditProfile2 (mkState creditProfile2 [])
      ⟨creditProfile2, []⟩ "t1").2.2 rfl 2 rfl (by decide)]
  · rw [(C4_useCreditForScan_spec creditProfile2 (mkState creditProfile2 [])
      ⟨creditProfile2, []⟩ "t1").2.2 rfl 2 rfl (by decide)]
    decide

/-- C5: when credits are strictly positive and the underlying profile update
fails, `useCreditForScan` still returns `true`: the stored row and the local
user are unchanged, only `error` is set — success is reported without being
verified. -/
theorem C5_useCreditForScan_failure_reports_success (server : Profile)
    (st : HookState) (u : UserState) (now msg : String) (c : Int)
    (hu : st.user = some u) (hc : u.profile.credits = some c) (hpos : 0 < c) :
    useCreditForScan server st now (UpdateOutcome.fail msg)
      = (server, { st with error := some msg }, true) := by
  simp [useCreditForScan, hu, jsLe, hc, show ¬ c ≤ 0 by omega, updateProfile]

/-- C5 witness: the failure path at a concrete two-credit user. -/
theorem C5_useCreditForScan_failure_reports_success_witness :
    useCreditForScan creditProfile2 (mkState creditProfile2 []) "t1"
        (UpdateOutcome.fail "boom")
      = (creditProfile2, { mkState creditProfile2 [] with error := some "boom" },
         true) :=
  C5_useCreditForScan_failure_reports_success creditProfile2
    (mkState creditProfile2 []) ⟨creditProfile2, []⟩ "t1" "boom" 2 rfl rfl
    (by decide)

/-- C6: `addMealToLog` builds the inserted row as a shallow copy of the input
with `user_id` overridden to the current user's id, `scanned_at` set to the
current time, and any client-supplied `id` stripped; on success the row
returned by the service (the built row with a server-assigned id) is
prepended to the front of `mealLog` and returned to the caller, so the new
first element has `user_id = u.id`, the fresh `scanned_at`, and the service's
id rather than any client-supplied one. -/
theorem C6_addMealToLog_spec (st : HookState) (u : UserState)
    (mealItem : MealLogEntry) (now sid : String) (hu : st.user = some u) :
    ((mealToAdd u mealItem now).id = none
      ∧ (mealToAdd u mealItem now).user_id = some u.profile.id
      ∧ (mealToAdd u mealItem now).scanned_at = some now
      ∧ (mealToAdd u mealItem now).name = mealItem.name
      ∧ (mealToAdd u mealItem now).calories = mealItem.calories)
    ∧ (addMealToLog st mealItem now (InsertOutcome.ok sid)
        = (withMealLog st u
            (insertMealService (mealToAdd u mealItem now) sid :: u.mealLog),
           some (insertMealService (mealToAdd u mealItem now) sid)))
    ∧ ((insertMealService (mealToAdd u mealItem now) sid).user_id
        = some u.profile.id
      ∧ (insertMealService (mealToAdd u mealItem now) sid).scanned_at = some now
      ∧ (insertMealService (mealToAdd u mealItem now) sid).id = some sid) := by
  refine ⟨⟨rfl, rfl, rfl, rfl, rfl⟩, ?_, rfl, rfl, rfl⟩
  simp [addMealToLog, hu, withMealLog, insertMealService, mealToAdd]

/-- C6 witness: inserting a concrete "Apple" item for a concrete user. -/
theorem C6_addMealToLog_spec_witness :
    (mealToAdd ⟨freeProfile0, []⟩ appleItem "t1").id = none
    ∧ addMealToLog (mkState freeProfile0 []) appleItem "t1" (InsertOutcome.ok "s9")
        = (withMealLog (mkState freeProfile0 []) ⟨freeProfile0, []⟩
            [insertMealService (mealToAdd ⟨freeProfile0, []⟩ appleItem "t1") "s9"],
           some (insertMealService (mealToAdd ⟨freeProfile0, []⟩ appleItem "t1") "s9")) :=
  ⟨((C6_addMealToLog_spec (mkState freeProfile0 []) ⟨freeProfile0, []⟩
      appleItem "t1" "s9" rfl).1).1,
   (C6_addMealToLog_spec (mkState freeProfile0 []) ⟨freeProfile0, []⟩
      appleItem "t1" "s9" rfl).2.1⟩

/-- C7: `updateProfile` on failure changes nothing but `error` (set to the
failure message) and returns `null`; on success it merges the returned row
over the current user (keeping `mealLog` and, when the local profile agrees
with the stored row, every field the update did not touch), returns the row,
and does not clear a prior `error`. -/
theorem C7_updateProfile_spec (server : Profile) (st : HookState)
    (u : UserState) (updates : ProfileUpdates) (now msg : String)
    (hu : st.user = some u) :
    (updateProfile server st updates now (UpdateOutcome.fail msg)
        = (server, { st with error := some msg }, none))
    ∧ (updateProfile server st updates now UpdateOutcome.ok
        = (applyUpdates server updates now,
           mergeRow st u (applyUpdates server updates now),
           some (applyUpdates server updates now)))
    ∧ ((updateProfile server st updates now UpdateOutcome.ok).2.1.error
        = st.error)
    ∧ ((updateProfile server st updates now
          UpdateOutcome.ok).2.1.user.map (fun v => v.mealLog) = some u.mealLog)
    ∧ (u.profile = server →
        (updates.is_premium = none →
          (applyUpdates server updates now).is_premium = u.profile.is_premium)
        ∧ (updates.credits = none →
          (applyUpdates server updates now).credits = u.profile.credits)
        ∧ (updates.track_calories_usage = none →
          (applyUpdates server updates now).track_calories_usage
            = u.profile.track_calories_usage)) := by
  refine ⟨rfl, ?_, ?_, ?_, ?_⟩
  · simp [updateProfile, hu, mergeRow]
  · simp [updateProfile, hu]
  · simp [updateProfile, hu]
  · rintro rfl
    refine ⟨?_, ?_, ?_⟩ <;> intro h <;> simp [applyUpdates, h]

/-- C7 witness: a failing and a succeeding credits update at a concrete
state that carries a prior error. -/
theorem C7_updateProfile_spec_witness :
    (updateProfile creditProfile2
        { mkState creditProfile2 [] with error := some "old" }
        { credits := some (some 3) } "t1" (UpdateOutcome.fail "down")
      = (creditProfile2,
         { mkState creditProfile2 [] with error := some "down" }, none))
    ∧ ((updateProfile creditProfile2
        { mkState creditProfile2 [] with error := some "old" }
        { credits := some (some 3) } "t1" UpdateOutcome.ok).2.1.error
      = some "old") := by
  constructor
  · have h := (C7_updateProfile_spec creditProfile2
      { mkState creditProfile2 [] with error := some "old" }
      ⟨creditProfile2, []⟩ { credits := some (some 3) } "t1" "down" rfl).1
    rw [h]
  · exact (C7_updateProfile_spec creditProfile2
      { mkState creditProfile2 [] with error := some "old" }
      ⟨creditProfile2, []⟩ { credits := some (some 3) } "t1" "down" rfl).2.2.1

/-- C8: a profile fetch first raises `loading` and clears `error`; "no rows"
yields `user = null` without an error; a failure of either query records its
message and yields `user = null`; a found profile with its meal log populates
`user`; and every outcome ends with `loading = false`. -/
theorem C8_fetchUserProfile_spec (st : HookState) (pres : FetchProfileResult)
    (mres : FetchMealsResult) :
    ((fetchStart st).loading = true ∧ (fetchStart st).error = none)
    ∧ ((fetchUserProfile st pres mres).loading = false)
    ∧ (fetchUserProfile st FetchProfileResult.noRows mres
        = { st with loading := false, error := none, user := none })
    ∧ (∀ msg : String, fetchUserProfile st (FetchProfileResult.err msg) mres
        = { st with loading := false, error := some msg, user := none })
    ∧ (∀ (p : Profile) (msg : String),
        fetchUserProfile st (FetchProfileResult.found p) (FetchMealsResult.err msg)
          = { st with loading := false, error := some msg, user := none })
    ∧ (∀ (p : Profile) (meals : Option (List MealLogEntry)),
        fetchUserProfile st (FetchProfileResult.found p) (FetchMealsResult.ok meals)
          = { st with loading := false, error := none, user := some { profile := p, mealLog := meals.getD [] } }) := by
  refine ⟨⟨rfl, rfl⟩, ?_, ?_, ?_, ?_, ?_⟩
  · cases pres with
    | found p => cases mres <;> rfl
    | noRows => rfl
    | err msg => rfl
  · cases mres <;> rfl
  · intro msg; cases mres <;> rfl
  · intro p msg; rfl
  · intro p meals; rfl

/-- C9: `remainingFreeScans` is `0` with no user and `max 0 (10 - usage)` for
a user with a numeric usage counter; hence a non-premium, zero-credit user at
or past the cap has no remaining free scans and `canUseForFree = false`. -/
theorem C9_remainingFreeScans_spec :
    (remainingFreeScans none = 0)
    ∧ (∀ (u : UserState) (t : Int), u.profile.track_calories_usage = some t →
        remainingFreeScans (some u) = max 0 (MAX_FREE_SCANS - t))
    ∧ (∀ (u : UserState) (t : Int), u.profile.is_premium = false →
        u.profile.credits = some 0 → u.profile.track_calories_usage = some t →
        MAX_FREE_SCANS ≤ t →
        remainingFreeScans (some u) = 0 ∧ canUseForFree (some u) = false) := by
  refine ⟨rfl, ?_, ?_⟩
  · intro u t ht
    simp [remainingFreeScans, ht]
  · intro u t hp hc ht hge
    rw [MAX_FREE_SCANS] at hge
    have hrem : remainingFreeScans (some u) = 0 := by
      simp [remainingFreeScans, ht, MAX_FREE_SCANS]
      omega
    exact ⟨hrem, by simp [canUseForFree, hp, hc, hrem]⟩

/-- C9 witness: a concrete capped user has no free scans left. -/
theorem C9_remainingFreeScans_spec_witness :
    remainingFreeScans (some ⟨cappedProfile10, []⟩) = 0
    ∧ canUseForFree (some ⟨cappedProfile10, []⟩) = false :=
  (C9_remainingFreeScans_spec).2.2 ⟨cappedProfile10, []⟩ 10 rfl rfl rfl
    (by decide)

/-- C10: when the usage counter is absent, the derived values read it as 0 —
full availability (`remainingFreeScans = 10`, `canUseForFree = true`) — yet
`incrementTrackCaloriesUsage` does nothing for the same user, because
`undefined < MAX_FREE_SCANS` is false rather than treating the field as 0. -/
theorem C10_missing_usage_counter (p : Profile) (ml : List MealLogEntry)
    (l : Bool) (e : Option String) (server : Profile) (now : String)
    (outcome : UpdateOutcome) (hp : p.is_premium = false)
    (hc : p.credits = some 0) (ht : p.track_calories_usage = none) :
    remainingFreeScans (some ⟨p, ml⟩) = 10
    ∧ canUseForFree (some ⟨p, ml⟩) = true
    ∧ incrementTrackCaloriesUsage server ⟨some ⟨p, ml⟩, l, e⟩ now outcome
        = (server, ⟨some ⟨p, ml⟩, l, e⟩) := by
  have hrem : remainingFreeScans (some ⟨p, ml⟩) = 10 := by
    simp [remainingFreeScans, ht, MAX_FREE_SCANS]
  refine ⟨hrem, ?_, ?_⟩
  · simp [canUseForFree, hp, hc, hrem]
  · simp [incrementTrackCaloriesUsage, hp, hc, jsGt, jsLt, ht]

/-- C10 witness: a concrete user whose usage field is missing. -/
theorem C10_missing_usage_counter_witness :
    remainingFreeScans (some ⟨freeProfileNoUsage, []⟩) = 10
    ∧ canUseForFree (some ⟨freeProfileNoUsage, []⟩) = true
    ∧ incrementTrackCaloriesUsage freeProfileNoUsage
        ⟨some ⟨freeProfileNoUsage, []⟩, false, none⟩ "t1" UpdateOutcome.ok
      = (freeProfileNoUsage, ⟨some ⟨freeProfileNoUsage, []⟩, false, none⟩) :=
  C10_missing_usage_counter freeProfileNoUsage [] false none freeProfileNoUsage
    "t1" UpdateOutcome.ok rfl rfl rfl
